import Mathlib

/-!
# Verification of the WDI clustering-and-fitting script

Shallow embedding of `src/cluster_code.py`, a single procedural script that
loads a World-Development-Indicators style CSV, cleans it, reshapes it
(melt, then pivot with `aggfunc='first'`), clusters the numeric columns with
seeded k-means, and fits a linear trend with error propagation.

Modelling conventions:
* dataframes are lists of rows; cells that pandas would hold as `NaN`/`pd.NA`
  are `Option.none`;
* machine floats are idealised as `ℚ` for the data pipeline and as `ℝ` for
  the curve-fitting arithmetic (which involves square roots);
* operations delegated to pandas/sklearn/statsmodels are embedded by their
  documented behaviour on the call made by the script;
* `cluster_tools.scaler` and `errors.error_prop` are imported by the script
  but their files are not part of the sources; they are modelled from the
  specification and marked as such.
-/

set_option maxHeartbeats 1000000

namespace ClusterCode

/-- The fixed list of year columns used by `read_data` (source lines 50-52). -/
def yearCols : List String :=
  ["1980", "1985", "1990", "1995", "2000", "2005", "2010", "2015", "2020"]

/-! ## Missing-value filling (source line 38)

`wdi_data.fillna(method='ffill').fillna(method='bfill')` — pandas applies
each fill independently to every column, so the primitive operation is the
fill of a single column, a list of optional cells. -/

/-- Forward fill of one column: `carry` is the last non-missing value seen
so far (initially none). Each missing cell is replaced by `carry`. -/
def ffillCol (carry : Option α) : List (Option α) → List (Option α)
  | [] => []
  | x :: xs =>
    match x with
    | some v => some v :: ffillCol (some v) xs
    | none => carry :: ffillCol carry xs

/-- `fillna(method='ffill')` on one column. -/
def colFfill (l : List (Option α)) : List (Option α) := ffillCol none l

/-- `fillna(method='bfill')` on one column: forward fill of the reversed
column. -/
def colBfill (l : List (Option α)) : List (Option α) :=
  (ffillCol none l.reverse).reverse

/-- The composite fill performed by `read_data`: forward fill, then backward
fill (source line 38, in that order). -/
def colFill (l : List (Option α)) : List (Option α) := colBfill (colFfill l)

/-- Last non-missing value of a column, starting from accumulator `acc`. -/
def lastSomeA (acc : Option α) : List (Option α) → Option α
  | [] => acc
  | x :: xs =>
    match x with
    | some v => lastSomeA (some v) xs
    | none => lastSomeA acc xs

/-- Last non-missing value of a column, if any. -/
def lastSome (l : List (Option α)) : Option α := lastSomeA none l

/-- First non-missing value of a column, if any. -/
def firstSome : List (Option α) → Option α
  | [] => none
  | some v :: _ => some v
  | none :: xs => firstSome xs

/-- The fill policy in the specification's words: position `i` receives the
last preceding (or current) non-missing value of its column; if there is
none, it receives the next following non-missing value; an all-missing
column stays missing. -/
def fillPolicySpec (l : List (Option α)) (i : Nat) : Option α :=
  match lastSome (l.take (i + 1)) with
  | some v => some v
  | none => firstSome (l.drop (i + 1))

/-- Column `j` of a row-major frame (missing when the row is too short,
matching a ragged frame's `NaN` padding). -/
def getCol (j : Nat) (rows : List (List (Option α))) : List (Option α) :=
  rows.map (fun r => r.getD j none)

/-- The frame-level fill of source line 38: every one of the `w` columns is
filled independently by `colFill`, and the rows are reassembled. -/
def fillFrame (w : Nat) (rows : List (List (Option α))) :
    List (List (Option α)) :=
  (List.range rows.length).map
    (fun i => (List.range w).map (fun j => (colFill (getCol j rows)).getD i none))

theorem ffillCol_length (c : Option α) (l : List (Option α)) :
    (ffillCol c l).length = l.length := by
  induction l generalizing c with
  | nil => rfl
  | cons x xs ih =>
    cases x <;> simp [ffillCol, ih]

theorem ffillCol_getElem? (l : List (Option α)) (c : Option α) (i : Nat)
    (h : i < l.length) :
    (ffillCol c l)[i]? = some (lastSomeA c (l.take (i + 1))) := by
  induction l generalizing c i with
  | nil => simp at h
  | cons x xs ih =>
    cases i with
    | zero => cases x <;> simp [ffillCol, lastSomeA]
    | succ n =>
      have hn : n < xs.length := by simpa using h
      cases x <;> simp [ffillCol, lastSomeA, ih _ _ hn]

theorem firstSome_ffill (xs : List (Option α)) :
    firstSome (ffillCol none xs) = firstSome xs := by
  induction xs with
  | nil => rfl
  | cons x xs ih =>
    cases x <;> simp [ffillCol, firstSome, ih]

theorem lastSomeA_append (acc : Option α) (l : List (Option α)) (x : Option α) :
    lastSomeA acc (l ++ [x]) =
      match x with
      | some v => some v
      | none => lastSomeA acc l := by
  induction l generalizing acc with
  | nil => cases x <;> rfl
  | cons y ys ih =>
    cases y <;> simp [lastSomeA, ih]

theorem lastSome_reverse (l : List (Option α)) :
    lastSome l.reverse = firstSome l := by
  induction l with
  | nil => rfl
  | cons x xs ih =>
    cases x with
    | none =>
      simp only [List.reverse_cons, lastSome] at *
      rw [lastSomeA_append]
      simpa [firstSome] using ih
    | some v =>
      simp only [List.reverse_cons, lastSome] at *
      rw [lastSomeA_append]
      simp [firstSome]

/-- After a forward fill, the first non-missing value at or after position
`i` is: the last original non-missing value at or before `i` when there is
one, and the first original non-missing value after `i` otherwise. -/
theorem firstSome_drop_ffill (l : List (Option α)) (c : Option α) (i : Nat)
    (h : i < l.length) :
    firstSome ((ffillCol c l).drop i) =
      match lastSomeA c (l.take (i + 1)) with
      | some v => some v
      | none => firstSome (l.drop (i + 1)) := by
  induction l generalizing c i with
  | nil => simp at h
  | cons x xs ih =>
    cases i with
    | zero =>
      cases x with
      | some v => simp [ffillCol, lastSomeA, firstSome]
      | none =>
        cases c with
        | some w => simp [ffillCol, lastSomeA, firstSome]
        | none =>
          simp only [ffillCol, lastSomeA, List.take_succ_cons, List.take_zero,
            List.drop_succ_cons, List.drop_zero, List.drop_one]
          simpa [firstSome] using firstSome_ffill xs
    | succ n =>
      have hn : n < xs.length := by simpa using h
      cases x with
      | some v => simpa [ffillCol, lastSomeA] using ih (some v) n hn
      | none => simpa [ffillCol, lastSomeA] using ih c n hn

theorem colBfill_getElem? (l : List (Option α)) (i : Nat) (h : i < l.length) :
    (colBfill l)[i]? = some (firstSome (l.drop i)) := by
  have hlen : (ffillCol (none : Option α) l.reverse).length = l.length := by
    simp [ffillCol_length]
  have hrev : i < (ffillCol (none : Option α) l.reverse).length := by
    simpa [hlen] using h
  rw [colBfill, List.getElem?_reverse hrev, hlen]
  have hidx : l.length - 1 - i < l.reverse.length := by
    simp only [List.length_reverse]
    omega
  rw [ffillCol_getElem? _ _ _ (by simpa using hidx)]
  have htake : l.length - 1 - i + 1 = l.length - i := by omega
  have htr : l.reverse.take (l.length - i) = (l.drop i).reverse := by
    have h1 := List.reverse_take (l := l.reverse) (n := l.length - i)
    simp only [List.reverse_reverse, List.length_reverse] at h1
    have hsub : l.length - (l.length - i) = i := by omega
    rw [hsub] at h1
    simpa using congrArg List.reverse h1
  rw [htake, htr]
  have := lastSome_reverse (l.drop i)
  simpa [lastSome] using this

/-- The composite fill at one position, in specification form. -/
theorem colFill_getElem? (l : List (Option α)) (i : Nat) (h : i < l.length) :
    (colFill l)[i]? = some (fillPolicySpec l i) := by
  have hlen : (colFfill l).length = l.length := by
    simp [colFfill, ffillCol_length]
  have h' : i < (colFfill l).length := by simpa [hlen] using h
  rw [colFill, colBfill_getElem? _ _ h']
  rw [fillPolicySpec]
  have := firstSome_drop_ffill l none i h
  simp only [colFfill]
  rw [this]
  cases hls : lastSomeA none (l.take (i + 1)) <;> simp [lastSome, hls]

theorem colFill_length (l : List (Option α)) : (colFill l).length = l.length := by
  simp [colFill, colBfill, colFfill, ffillCol_length]

theorem getCol_fillFrame (rows : List (List (Option α))) (w i j : Nat)
    (hj : j < w) (hi : i < rows.length) :
    (getCol j (fillFrame w rows))[i]? =
      some ((colFill (getCol j rows)).getD i none) := by
  rw [getCol, List.getElem?_map, fillFrame, List.getElem?_map,
    List.getElem?_range hi]
  simp [List.getD_eq_getElem?_getD, List.getElem?_map, List.getElem?_range hj]

/-! ## Claim C3 -/

/-- **C3.** Missing-value fill policy of `read_data` (source line 38):
after `fillna(method='ffill').fillna(method='bfill')`, applied per column,
every cell holds the last preceding non-missing value of its column, and a
cell with no preceding non-missing value holds the next following
non-missing value (an all-missing column stays missing). -/
theorem read_data_fill_policy (rows : List (List (Option α))) (w i j : Nat)
    (hj : j < w) (hi : i < rows.length) :
    (getCol j (fillFrame w rows))[i]? = some (fillPolicySpec (getCol j rows) i) := by
  rw [getCol_fillFrame rows w i j hj hi]
  have hlen : i < (getCol j rows).length := by simpa [getCol] using hi
  have := colFill_getElem? (getCol j rows) i hlen
  rw [List.getD_eq_getElem?_getD, this]
  rfl

/-- Witness for C3 at a concrete column: in the frame
`[[none, 1], [2, none], [none, none]]` the first column `[none, 2, none]`
fills to `[2, 2, 2]`: position 0 backward-fills from position 1,
position 2 forward-fills from position 1. -/
theorem read_data_fill_policy_witness :
    ((0 : Nat) < 2 ∧ (0 : Nat) < 3) ∧
      (getCol 0 (fillFrame 2 [[none, some (1 : Int)], [some 2, none],
          [none, none]]))[0]? =
        some (fillPolicySpec
          (getCol 0 [[none, some (1 : Int)], [some 2, none], [none, none]]) 0) :=
  ⟨⟨by decide, by decide⟩,
    read_data_fill_policy [[none, some (1 : Int)], [some 2, none], [none, none]]
      2 0 0 (by decide) (by decide)⟩

/-! ## Reshaping: melt then pivot (source lines 56-70)

`pd.melt(wdi_data, id_vars=['Series Name','Country Name'], var_name='Year',
value_name='Value')` followed by
`pivot_table(index=['Year','Country Name'], columns='Series Name',
values='Value', aggfunc='first')` and `reset_index()`.

A cleaned wide-by-year row carries its two id columns and one value per
value column; melt emits, value column by value column, one long record per
row.  The pivot is embedded by its cells (first record of each
`(Year, Country Name, Series Name)` group, pandas `aggfunc='first'`), its
index (the distinct `(Year, Country Name)` pairs) and its columns (the
distinct series names; pandas additionally sorts the index and columns,
which no counting or lookup below depends on). -/

/-- A row of the cleaned wide-by-year table. -/
structure WideRow (V : Type) where
  series : String
  country : String
  vals : List V
  deriving DecidableEq, Repr

/-- A row of the melted long-form table. -/
structure LongRec (V : Type) where
  year : String
  country : String
  series : String
  value : V
  deriving DecidableEq, Repr

variable {V : Type}

/-- `pd.melt` with id columns Series Name and Country Name: one record per
value column (in column order) and row (in row order). -/
def meltRows (years : List String) (rows : List (WideRow V)) : List (LongRec V) :=
  years.enum.flatMap fun jy =>
    rows.filterMap fun r =>
      (r.vals[jy.1]?).map fun v => ⟨jy.2, r.country, r.series, v⟩

/-- One pivot cell: the first melted record of the `(year, country, series)`
group, per `aggfunc='first'`; `none` is pandas `NaN` for an empty group. -/
def pivotCell (ms : List (LongRec V)) (y c s : String) : Option V :=
  (ms.find? fun m => m.year == y && m.country == c && m.series == s).map
    (fun m => m.value)

/-- The pivot index: distinct `(Year, Country Name)` pairs of the melted
table, one output row each. -/
def pivotIndex (ms : List (LongRec V)) : List (String × String) :=
  (ms.map fun m => (m.year, m.country)).dedup

/-- The pivoted table's columns after `reset_index()`: the two key columns
followed by the distinct series names. -/
def pivotColumns (ms : List (LongRec V)) : List String :=
  "Year" :: "Country Name" :: (ms.map fun m => m.series).dedup

theorem mem_meltRows (years : List String) (rows : List (WideRow V))
    (m : LongRec V) :
    m ∈ meltRows years rows ↔
      ∃ j : Nat, years[j]? = some m.year ∧
        ∃ r ∈ rows, r.series = m.series ∧ r.country = m.country ∧
          r.vals[j]? = some m.value := by
  simp only [meltRows, List.mem_flatMap, List.mem_filterMap, Prod.exists,
    List.mk_mem_enum_iff_getElem?, Option.map_eq_some']
  constructor
  · rintro ⟨j, y, hy, r, hr, v, hv, heq⟩
    cases heq
    exact ⟨j, hy, r, hr, rfl, rfl, hv⟩
  · rintro ⟨j, hy, r, hr, hs, hc, hv⟩
    exact ⟨j, m.year, hy, r, hr, m.value, by rw [hv], by
      cases m; simp_all⟩

/-- In the melt of a table whose `(Series Name, Country Name)` pairs
determine the row, two melted records with the same key coincide. -/
theorem meltRows_key_unique (years : List String) (rows : List (WideRow V))
    (hy : years.Nodup)
    (hkey : ∀ r₁ ∈ rows, ∀ r₂ ∈ rows,
      r₁.series = r₂.series → r₁.country = r₂.country → r₁ = r₂)
    (m₁ m₂ : LongRec V) (h₁ : m₁ ∈ meltRows years rows)
    (h₂ : m₂ ∈ meltRows years rows) (hyear : m₁.year = m₂.year)
    (hcountry : m₁.country = m₂.country) (hseries : m₁.series = m₂.series) :
    m₁ = m₂ := by
  obtain ⟨j₁, hj₁, r₁, hr₁, hs₁, hc₁, hv₁⟩ := (mem_meltRows years rows m₁).mp h₁
  obtain ⟨j₂, hj₂, r₂, hr₂, hs₂, hc₂, hv₂⟩ := (mem_meltRows years rows m₂).mp h₂
  have hj₁lt : j₁ < years.length := by
    by_contra hge
    rw [List.getElem?_eq_none (by omega)] at hj₁
    exact Option.noConfusion hj₁
  have hjeq : j₁ = j₂ := by
    apply List.getElem?_inj hj₁lt hy
    rw [hj₁, hj₂, hyear]
  have hreq : r₁ = r₂ :=
    hkey r₁ hr₁ r₂ hr₂ (by rw [hs₁, hs₂, hseries]) (by rw [hc₁, hc₂, hcountry])
  have hveq : m₁.value = m₂.value := by
    rw [hjeq, hreq] at hv₁
    rw [hv₁] at hv₂
    exact Option.some.inj hv₂
  cases m₁; cases m₂
  simp_all

/-! ## Claim C1 -/

/-- **C1.** Round-trip law of reshaping: on a valid cleaned wide-by-year
table (every row carries one value per year column, and the
`(Series Name, Country Name)` key determines the row), the melt-then-pivot
composition of `read_data` (source lines 56-70) is a bijection on
`(year, country, indicator, value)` triples: the pivot holds value `v` at
`(y, c, s)` exactly when the original table holds `v` at row `(s, c)` and
year column `y`. -/
theorem read_data_reshape_roundtrip (rows : List (WideRow V))
    (hlen : ∀ r ∈ rows, r.vals.length = yearCols.length)
    (hkey : ∀ r₁ ∈ rows, ∀ r₂ ∈ rows,
      r₁.series = r₂.series → r₁.country = r₂.country → r₁ = r₂)
    (y c s : String) (v : V) :
    pivotCell (meltRows yearCols rows) y c s = some v ↔
      ∃ r ∈ rows, r.series = s ∧ r.country = c ∧
        ∃ j : Nat, yearCols[j]? = some y ∧ r.vals[j]? = some v := by
  have hynodup : yearCols.Nodup := by decide
  constructor
  · intro h
    rcases hfind : (meltRows yearCols rows).find?
        (fun m => m.year == y && m.country == c && m.series == s) with _ | m
    · rw [pivotCell, hfind] at h
      exact Option.noConfusion h
    · rw [pivotCell, hfind] at h
      have hval : m.value = v := Option.some.inj h
      have hmem := List.mem_of_find?_eq_some hfind
      have hp := List.find?_some hfind
      simp only [Bool.and_eq_true, beq_iff_eq] at hp
      obtain ⟨⟨hmy, hmc⟩, hms⟩ := hp
      obtain ⟨j, hj, r, hr, hs, hc, hv⟩ :=
        (mem_meltRows yearCols rows m).mp hmem
      exact ⟨r, hr, hs.trans hms, hc.trans hmc,
        j, by rw [hj, hmy], by rw [hv, hval]⟩
  · rintro ⟨r, hr, hs, hc, j, hj, hv⟩
    have hmem : (⟨y, c, s, v⟩ : LongRec V) ∈ meltRows yearCols rows :=
      (mem_meltRows yearCols rows _).mpr ⟨j, hj, r, hr, hs, hc, hv⟩
    have hsome : ((meltRows yearCols rows).find?
        (fun m => m.year == y && m.country == c && m.series == s)).isSome := by
      rw [List.find?_isSome]
      exact ⟨_, hmem, by simp⟩
    rcases hfind : (meltRows yearCols rows).find?
        (fun m => m.year == y && m.country == c && m.series == s) with _ | m
    · rw [hfind] at hsome
      exact absurd hsome (by simp)
    · have hmmem := List.mem_of_find?_eq_some hfind
      have hp := List.find?_some hfind
      simp only [Bool.and_eq_true, beq_iff_eq] at hp
      obtain ⟨⟨hmy, hmc⟩, hms⟩ := hp
      have : m = (⟨y, c, s, v⟩ : LongRec V) :=
        meltRows_key_unique yearCols rows hynodup hkey m _ hmmem hmem
          (by simp [hmy]) (by simp [hmc]) (by simp [hms])
      rw [pivotCell, hfind, this]
      rfl

/-- Witness for C1: a one-row table with indicator CO2, country NGA and the
nine year values 1..9; the pivot at (1980, NGA, CO2) recovers the value 1. -/
theorem read_data_reshape_roundtrip_witness :
    ((∀ r ∈ [WideRow.mk "CO2" "NGA" [(1 : Int), 2, 3, 4, 5, 6, 7, 8, 9]],
        r.vals.length = yearCols.length) ∧
      (∀ r₁ ∈ [WideRow.mk "CO2" "NGA" [(1 : Int), 2, 3, 4, 5, 6, 7, 8, 9]],
        ∀ r₂ ∈ [WideRow.mk "CO2" "NGA" [(1 : Int), 2, 3, 4, 5, 6, 7, 8, 9]],
        r₁.series = r₂.series → r₁.country = r₂.country → r₁ = r₂)) ∧
    (pivotCell (meltRows yearCols
        [WideRow.mk "CO2" "NGA" [(1 : Int), 2, 3, 4, 5, 6, 7, 8, 9]])
        "1980" "NGA" "CO2" = some 1 ↔
      ∃ r ∈ [WideRow.mk "CO2" "NGA" [(1 : Int), 2, 3, 4, 5, 6, 7, 8, 9]],
        r.series = "CO2" ∧ r.country = "NGA" ∧
        ∃ j : Nat, yearCols[j]? = some "1980" ∧ r.vals[j]? = some 1) :=
  ⟨⟨by decide, by decide⟩,
    read_data_reshape_roundtrip _ (by decide) (by decide) "1980" "NGA" "CO2" 1⟩

theorem melt_key_toFinset (rows : List (WideRow V))
    (hlen : ∀ r ∈ rows, r.vals.length = yearCols.length) :
    ((meltRows yearCols rows).map fun m => (m.year, m.country)).toFinset =
      yearCols.toFinset ×ˢ (rows.map fun r => r.country).toFinset := by
  ext ⟨a, b⟩
  simp only [List.mem_toFinset, List.mem_map, Finset.mem_product,
    List.mem_toFinset]
  constructor
  · rintro ⟨m, hm, heq⟩
    obtain ⟨j, hj, r, hr, _, hc, _⟩ := (mem_meltRows yearCols rows m).mp hm
    obtain ⟨rfl, rfl⟩ := Prod.mk.injEq .. ▸ heq
    exact ⟨List.mem_iff_getElem?.mpr ⟨j, by simpa using hj⟩,
      ⟨r, hr, by simpa using hc⟩⟩
  · rintro ⟨ha, r, hr, rfl⟩
    obtain ⟨j, hj⟩ := List.mem_iff_getElem?.mp ha
    have hjlt : j < yearCols.length := by
      by_contra hge
      rw [List.getElem?_eq_none (by omega)] at hj
      exact Option.noConfusion hj
    have hvlt : j < r.vals.length := by rw [hlen r hr]; exact hjlt
    refine ⟨⟨a, r.country, r.series, r.vals[j]⟩, ?_, rfl⟩
    exact (mem_meltRows yearCols rows _).mpr
      ⟨j, hj, r, hr, rfl, rfl, (List.getElem?_eq_getElem hvlt)⟩

theorem melt_series_toFinset (rows : List (WideRow V))
    (hlen : ∀ r ∈ rows, r.vals.length = yearCols.length) :
    ((meltRows yearCols rows).map fun m => m.series).toFinset =
      (rows.map fun r => r.series).toFinset := by
  ext s
  simp only [List.mem_toFinset, List.mem_map]
  constructor
  · rintro ⟨m, hm, heq⟩
    obtain ⟨_, _, r, hr, hs, _, _⟩ := (mem_meltRows yearCols rows m).mp hm
    exact ⟨r, hr, hs.trans heq⟩
  · rintro ⟨r, hr, rfl⟩
    have hvlt : (0 : Nat) < r.vals.length := by rw [hlen r hr]; decide
    refine ⟨⟨"1980", r.country, r.series, r.vals[0]⟩, ?_, rfl⟩
    exact (mem_meltRows yearCols rows _).mpr
      ⟨0, rfl, r, hr, rfl, rfl, (List.getElem?_eq_getElem hvlt)⟩

/-! ## Claim C2 -/

/-- **C2.** Reshaper size guarantee: the pivoted wide-by-indicator table
built by `read_data` (source lines 63-70) has exactly one row per distinct
`(year, country)` pair present in the input — their number being (distinct
year columns) × (distinct countries), since every input row carries every
year column — and its column count is the number of distinct indicator
names plus the two key columns Year and Country Name. -/
theorem read_data_reshape_size (rows : List (WideRow V))
    (hlen : ∀ r ∈ rows, r.vals.length = yearCols.length) :
    (pivotIndex (meltRows yearCols rows)).Nodup ∧
    (pivotIndex (meltRows yearCols rows)).length =
      yearCols.dedup.length * (rows.map fun r => r.country).dedup.length ∧
    (pivotColumns (meltRows yearCols rows)).length =
      (rows.map fun r => r.series).dedup.length + 2 := by
  refine ⟨List.nodup_dedup _, ?_, ?_⟩
  · rw [pivotIndex, ← List.card_toFinset, melt_key_toFinset rows hlen,
      Finset.card_product, List.card_toFinset, List.card_toFinset]
  · rw [pivotColumns]
    simp only [List.length_cons]
    rw [← List.card_toFinset, melt_series_toFinset rows hlen,
      List.card_toFinset]

/-- Witness for C2: a two-row table (indicators CO2 and GDP, one country)
pivots to 9 × 1 rows and 2 + 2 columns. -/
theorem read_data_reshape_size_witness :
    (∀ r ∈ [WideRow.mk "CO2" "NGA" [(1 : Int), 2, 3, 4, 5, 6, 7, 8, 9],
        WideRow.mk "GDP" "NGA" [(10 : Int), 2, 3, 4, 5, 6, 7, 8, 9]],
      r.vals.length = yearCols.length) ∧
    ((pivotIndex (meltRows yearCols
        [WideRow.mk "CO2" "NGA" [(1 : Int), 2, 3, 4, 5, 6, 7, 8, 9],
         WideRow.mk "GDP" "NGA" [(10 : Int), 2, 3, 4, 5, 6, 7, 8, 9]])).Nodup ∧
      (pivotIndex (meltRows yearCols
        [WideRow.mk "CO2" "NGA" [(1 : Int), 2, 3, 4, 5, 6, 7, 8, 9],
         WideRow.mk "GDP" "NGA" [(10 : Int), 2, 3, 4, 5, 6, 7, 8, 9]])).length =
        yearCols.dedup.length *
          (([WideRow.mk "CO2" "NGA" [(1 : Int), 2, 3, 4, 5, 6, 7, 8, 9],
             WideRow.mk "GDP" "NGA" [(10 : Int), 2, 3, 4, 5, 6, 7, 8, 9]].map
              fun r => r.country).dedup.length) ∧
      (pivotColumns (meltRows yearCols
        [WideRow.mk "CO2" "NGA" [(1 : Int), 2, 3, 4, 5, 6, 7, 8, 9],
         WideRow.mk "GDP" "NGA" [(10 : Int), 2, 3, 4, 5, 6, 7, 8, 9]])).length =
        (([WideRow.mk "CO2" "NGA" [(1 : Int), 2, 3, 4, 5, 6, 7, 8, 9],
           WideRow.mk "GDP" "NGA" [(10 : Int), 2, 3, 4, 5, 6, 7, 8, 9]].map
            fun r => r.series).dedup.length) + 2) :=
  ⟨by decide, read_data_reshape_size _ (by decide)⟩

/-! ## The loader `read_data` and its error behaviour (source lines 32-72)

The script wraps nothing in custom error types: a missing column makes
pandas raise `KeyError` (at `drop`, at the year-column selection, or at
`melt`), and an unparseable year value makes `astype(float)` raise
`ValueError`.  The error kinds the specification names are included in the
embedded error type so that their absence is statable. -/

/-- Error kinds: the three the specification names plus the Python library
kinds the script's pandas/sklearn calls actually raise. -/
inductive PyError where
  | keyError (label : String)
  | valueError (msg : String)
  | dataFormatError (msg : String)
  | invalidParameterError (msg : String)
  | fitConvergenceError (msg : String)
  deriving DecidableEq, Repr

/-- Is this the `DataFormatError` kind of the specification? -/
def PyError.isDataFormat : PyError → Bool
  | .dataFormatError _ => true
  | _ => false

/-- A raw delimited input file, already split into header and cell grid. -/
structure RawFrame where
  header : List String
  rows : List (List String)
  deriving DecidableEq, Repr

/-- `replace('..', pd.NA)` on one cell (source line 35). -/
def toCell (s : String) : Option String :=
  if s = ".." then none else some s

/-- Digit-string value (0 for the empty string). -/
def natVal (cs : List Char) : Nat :=
  cs.foldl (fun a c => a * 10 + (c.toNat - 48)) 0

/-- `float(s)` on a plain decimal literal: optional sign, digits, optional
fractional part (at least one digit overall).  Scientific notation and
surrounding whitespace, which Python also accepts, do not occur in the
inputs modelled here. -/
def parseDecimal (s : String) : Option ℚ :=
  let (sgn, body) :=
    match s.toList with
    | '-' :: rest => ((-1 : ℚ), rest)
    | cs => ((1 : ℚ), cs)
  let ip := body.takeWhile (fun c => c ≠ '.')
  let rest := body.dropWhile (fun c => c ≠ '.')
  match rest with
  | [] =>
    if ip ≠ [] ∧ ip.all Char.isDigit then some (sgn * (natVal ip : ℚ)) else none
  | _ :: fp =>
    if (ip ≠ [] ∨ fp ≠ []) ∧ ip.all Char.isDigit ∧ fp.all Char.isDigit then
      some (sgn * ((natVal ip : ℚ) + (natVal fp : ℚ) / (10 ^ fp.length)))
    else none

/-- A cell of the cleaned frame: object (string) columns keep their cells,
year columns hold floats; `none` is `NaN`. -/
inductive CVal where
  | str (v : Option String)
  | num (v : Option ℚ)
  deriving DecidableEq, Repr

/-- `df.drop([name], axis=1)`: `KeyError` when the label is absent,
otherwise the column is removed from header and rows. -/
def dropColumn (hdr : List String) (rows : List (List (Option String)))
    (name : String) :
    Except PyError (List String × List (List (Option String))) :=
  match hdr.findIdx? (fun c => c == name) with
  | none => .error (.keyError name)
  | some i => .ok (hdr.eraseIdx i, rows.map fun r => r.eraseIdx i)

/-- The year-column selection `wdi_data[['1980', ..., '2020']]`:
`KeyError` on the first absent year column. -/
def yearIndices (hdr : List String) : Except PyError (List Nat) :=
  yearCols.mapM fun yc =>
    match hdr.findIdx? (fun c => c == yc) with
    | none => Except.error (PyError.keyError yc)
    | some i => Except.ok i

/-- `astype(float)` on one cell of a year column (`isYear`), or the identity
on an object column.  `NaN` stays `NaN`; an unparseable string raises
`ValueError`. -/
def astypeCell (isYear : Bool) (c : Option String) : Except PyError CVal :=
  if isYear then
    match c with
    | none => .ok (.num none)
    | some s =>
      match parseDecimal s with
      | some q => .ok (.num (some q))
      | none => .error (.valueError ("could not convert string to float: " ++ s))
  else .ok (.str c)

/-- `astype(float)` on the year columns of one row. -/
def astypeRow (yidx : List Nat) (row : List (Option String)) :
    Except PyError (List CVal) :=
  row.enum.mapM fun jc => astypeCell (yidx.contains jc.1) jc.2

/-- A pandas group key read off a cell (the id cells of this data are
always plain strings). -/
def keyStr : CVal → String
  | .str (some v) => v
  | _ => ""

/-- `pd.melt(..., id_vars=['Series Name','Country Name'])` applied to the
cleaned frame: `KeyError` when an id column is absent; otherwise every
other column melts, in column order. -/
def meltFrame (hdr : List String) (rows : List (List CVal)) :
    Except PyError (List (LongRec CVal)) :=
  match hdr.findIdx? (fun c => c == "Series Name"),
      hdr.findIdx? (fun c => c == "Country Name") with
  | none, _ => .error (.keyError "Series Name")
  | some _, none => .error (.keyError "Country Name")
  | some si, some ci =>
    let valueCols := hdr.enum.filter fun jn => jn.1 != si && jn.1 != ci
    let wide := rows.map fun row =>
      WideRow.mk (keyStr (row.getD si (.str none)))
        (keyStr (row.getD ci (.str none)))
        (valueCols.map fun jn => row.getD jn.1 (.str none))
    .ok (meltRows (valueCols.map fun jn => jn.2) wide)

/-- The pivoted output table: columns, and one row per distinct
`(Year, Country Name)` pair holding every indicator's cell. -/
def pivotFrameOut (ms : List (LongRec CVal)) :
    List String × List (String × String × List (Option CVal)) :=
  (pivotColumns ms,
   (pivotIndex ms).map fun yc =>
     (yc.1, yc.2,
      ((ms.map fun m => m.series).dedup).map fun s => pivotCell ms yc.1 yc.2 s))

/-- The cleaning prefix of `read_data` (source lines 35-44): replace the
`..` sentinel, forward/backward fill each column, drop duplicate rows, and
truncate the metadata rows from position 1519. -/
def cleanedRows (f : RawFrame) : List (List (Option String)) :=
  ((fillFrame f.header.length (f.rows.map fun r => r.map toCell)).dedup).take
    1519

/-- `read_data` from the year-column coercion on (source lines 50-70):
select and float-coerce the year columns, melt, pivot. -/
def read_data_stage2 (h2 : List String) (r2 : List (List (Option String))) :
    Except PyError ((List String × List (List CVal)) ×
      (List String × List (String × String × List (Option CVal)))) :=
  match yearIndices h2 with
  | .error e => .error e
  | .ok yidx =>
    match r2.mapM (astypeRow yidx) with
    | .error e => .error e
    | .ok r3 =>
      match meltFrame h2 r3 with
      | .error e => .error e
      | .ok melted => .ok ((h2, r3), pivotFrameOut melted)

/-- `read_data` from the second column drop on (source line 47, second
label). -/
def read_data_stage1 (h1 : List String) (r1 : List (List (Option String))) :
    Except PyError ((List String × List (List CVal)) ×
      (List String × List (String × String × List (Option CVal)))) :=
  match dropColumn h1 r1 "Series Code" with
  | .error e => .error e
  | .ok (h2, r2) => read_data_stage2 h2 r2

/-- `read_data` (source lines 21-72): load, replace the `..` sentinel,
forward/backward fill, drop duplicates, truncate the metadata rows from
position 1519, drop the two code columns, coerce the year columns to float,
melt and pivot.  Returns the cleaned frame and the pivoted frame. -/
def read_data (f : RawFrame) :
    Except PyError ((List String × List (List CVal)) ×
      (List String × List (String × String × List (Option CVal)))) :=
  match dropColumn f.header (cleanedRows f) "Country Code" with
  | .error e => .error e
  | .ok (h1, r1) => read_data_stage1 h1 r1

/-- Every column name `read_data` can raise a `KeyError` about: the two
dropped code columns, the two melt id columns, and the year columns. -/
def expectedColumns : List String :=
  "Country Code" :: "Series Code" :: "Series Name" :: "Country Name" ::
    yearCols

theorem dropColumn_error (hdr : List String)
    (rows : List (List (Option String))) (name : String) (e : PyError)
    (h : dropColumn hdr rows name = .error e) : e = .keyError name := by
  rw [dropColumn] at h
  rcases hfind : hdr.findIdx? (fun c => c == name) with _ | i <;>
    rw [hfind] at h
  · exact (Except.error.inj h).symm
  · exact Except.noConfusion h

theorem dropColumn_ok (hdr : List String)
    (rows : List (List (Option String))) (name : String) (i : Nat)
    (hfi : hdr.findIdx? (fun c => c == name) = some i) :
    dropColumn hdr rows name =
      .ok (hdr.eraseIdx i, rows.map fun r => r.eraseIdx i) := by
  rw [dropColumn, hfi]

theorem findIdx?_some_of_mem (l : List String) (name : String)
    (h : name ∈ l) :
    ∃ i, l.findIdx? (fun c => c == name) = some i := by
  have hs : (l.findIdx? (fun c => c == name)).isSome := by
    rw [List.findIdx?_isSome, List.any_eq_true]
    exact ⟨name, h, by simp⟩
  exact Option.isSome_iff_exists.mp hs

/-- A member other than the found one survives the erasure of the found
index. -/
theorem mem_eraseIdx_of_ne (l : List String) (name x : String) (hx : x ∈ l)
    (hne : x ≠ name) (i : Nat)
    (hfi : l.findIdx? (fun c => c == name) = some i) : x ∈ l.eraseIdx i := by
  obtain ⟨hilt, hpi, _⟩ := List.findIdx?_eq_some_iff_getElem.mp hfi
  have hli : l[i] = name := by simpa using hpi
  obtain ⟨j, hj⟩ := List.mem_iff_getElem?.mp hx
  have hjne : j ≠ i := by
    intro hji
    rw [hji, List.getElem?_eq_getElem hilt, hli] at hj
    exact hne (Option.some.inj hj).symm
  rw [List.mem_iff_getElem?]
  rcases Nat.lt_or_ge j i with hlt | hge
  · exact ⟨j, by rw [List.getElem?_eraseIdx, if_pos hlt]; exact hj⟩
  · refine ⟨j - 1, ?_⟩
    rw [List.getElem?_eraseIdx, if_neg (by omega),
      show j - 1 + 1 = j by omega]
    exact hj

theorem mapM_except_error {α β : Type} (g : α → Except PyError β)
    (l : List α) (e : PyError) (h : l.mapM g = .error e) :
    ∃ a ∈ l, g a = .error e := by
  induction l with
  | nil =>
    rw [List.mapM_nil] at h
    exact Except.noConfusion h
  | cons a as ih =>
    rw [List.mapM_cons] at h
    rcases hga : g a with e' | b
    · rw [hga] at h
      simp only [bind, Except.bind] at h
      exact ⟨a, List.mem_cons_self a as, by rw [hga, Except.error.inj h]⟩
    · rw [hga] at h
      simp only [bind, Except.bind] at h
      rcases hrest : as.mapM g with e'' | bs
      · rw [hrest] at h
        obtain ⟨x, hx, hgx⟩ := ih (by rw [hrest]; simpa using h)
        exact ⟨x, List.mem_cons_of_mem a hx, hgx⟩
      · rw [hrest] at h
        simp [pure, Except.pure] at h

/-- `mapM` fails whenever some element fails. -/
theorem mapM_error_of_exists {α β : Type} (g : α → Except PyError β)
    (l : List α) (a : α) (ha : a ∈ l) (e : PyError)
    (hga : g a = .error e) : ∃ e', l.mapM g = .error e' := by
  induction l with
  | nil => simp at ha
  | cons b bs ih =>
    rcases hgb : g b with eb | vb
    · exact ⟨eb, by rw [List.mapM_cons, hgb]; simp [bind, Except.bind]⟩
    · rcases List.mem_cons.mp ha with heq | hmem
      · rw [heq, hgb] at hga
        exact Except.noConfusion hga
      · obtain ⟨e', he'⟩ := ih hmem
        refine ⟨e', ?_⟩
        rw [List.mapM_cons, hgb]
        simp only [bind, Except.bind, he']

theorem yearIndices_error (hdr : List String) (e : PyError)
    (h : yearIndices hdr = .error e) : ∃ yc ∈ yearCols, e = .keyError yc := by
  obtain ⟨yc, hmem, hg⟩ := mapM_except_error _ _ _ h
  rcases hfind : hdr.findIdx? (fun c => c == yc) with _ | i <;>
    rw [hfind] at hg
  · exact ⟨yc, hmem, (Except.error.inj hg).symm⟩
  · exact Except.noConfusion hg

/-- The year-column selection fails when one of the year columns is
absent. -/
theorem yearIndices_fails (hdr : List String) (yc : String)
    (hmem : yc ∈ yearCols) (hnot : yc ∉ hdr) :
    ∃ e, yearIndices hdr = .error e := by
  have hnone : hdr.findIdx? (fun c => c == yc) = none := by
    rw [List.findIdx?_eq_none_iff]
    intro x hx
    simp only [beq_eq_false_iff_ne, ne_eq]
    exact fun hxe => hnot (hxe ▸ hx)
  exact mapM_error_of_exists
    (fun yc =>
      match hdr.findIdx? (fun c => c == yc) with
      | none => Except.error (PyError.keyError yc)
      | some i => Except.ok i)
    yearCols yc hmem (.keyError yc) (by simp only [hnone])

theorem astypeCell_error (b : Bool) (c : Option String) (e : PyError)
    (h : astypeCell b c = .error e) :
    ∃ s, e = .valueError ("could not convert string to float: " ++ s) := by
  unfold astypeCell at h
  rcases b with _ | _
  · simp at h
  · rcases c with _ | s
    · simp at h
    · simp only [if_true] at h
      rcases hp : parseDecimal s with _ | q <;> rw [hp] at h
      · exact ⟨s, (Except.error.inj h).symm⟩
      · exact Except.noConfusion h

theorem astypeRow_error (yidx : List Nat) (row : List (Option String))
    (e : PyError) (h : astypeRow yidx row = .error e) :
    ∃ s, e = .valueError ("could not convert string to float: " ++ s) := by
  obtain ⟨jc, _, hg⟩ := mapM_except_error _ _ _ h
  exact astypeCell_error _ _ _ hg

theorem meltFrame_error (hdr : List String) (rows : List (List CVal))
    (e : PyError) (h : meltFrame hdr rows = .error e) :
    e = .keyError "Series Name" ∨ e = .keyError "Country Name" := by
  rw [meltFrame] at h
  rcases h1 : hdr.findIdx? (fun c => c == "Series Name") with _ | si <;>
    rcases h2 : hdr.findIdx? (fun c => c == "Country Name") with _ | ci <;>
      rw [h1, h2] at h
  · exact Or.inl (Except.error.inj h).symm
  · exact Or.inl (Except.error.inj h).symm
  · exact Or.inr (Except.error.inj h).symm
  · exact Except.noConfusion h

theorem read_data_stage2_error (h2 : List String)
    (r2 : List (List (Option String))) (e : PyError)
    (h : read_data_stage2 h2 r2 = .error e) :
    (∃ c ∈ expectedColumns, e = .keyError c) ∨
      (∃ s, e = .valueError ("could not convert string to float: " ++ s)) := by
  rw [read_data_stage2] at h
  split at h
  next e3 heq =>
    obtain ⟨yc, hmem, hyc⟩ := yearIndices_error _ _ heq
    exact Or.inl ⟨yc, by simp [expectedColumns, hmem], (Except.error.inj h) ▸ hyc⟩
  next yidx _ =>
    split at h
    next e4 heq =>
      obtain ⟨row, _, hrow⟩ := mapM_except_error _ _ _ heq
      obtain ⟨s, hs⟩ := astypeRow_error _ _ _ hrow
      exact Or.inr ⟨s, (Except.error.inj h) ▸ hs⟩
    next r3 _ =>
      split at h
      next e5 heq =>
        rcases meltFrame_error _ _ _ heq with h5 | h5
        · exact Or.inl ⟨"Series Name", by decide, (Except.error.inj h) ▸ h5⟩
        · exact Or.inl ⟨"Country Name", by decide, (Except.error.inj h) ▸ h5⟩
      next melted _ => exact Except.noConfusion h

/-- Every failure of `read_data` is a `KeyError` naming one of the expected
columns, or the `astype(float)` `ValueError`. -/
theorem read_data_error_classified (f : RawFrame) (e : PyError)
    (h : read_data f = .error e) :
    (∃ c ∈ expectedColumns, e = .keyError c) ∨
      (∃ s, e = .valueError ("could not convert string to float: " ++ s)) := by
  rw [read_data] at h
  split at h
  next e1 heq =>
    have hk := dropColumn_error _ _ _ _ heq
    exact Or.inl ⟨"Country Code", by decide, (Except.error.inj h) ▸ hk⟩
  next h1 r1 _ =>
    rw [read_data_stage1] at h
    split at h
    next e2 heq =>
      have hk := dropColumn_error _ _ _ _ heq
      exact Or.inl ⟨"Series Code", by decide, (Except.error.inj h) ▸ hk⟩
    next h2 r2 _ => exact read_data_stage2_error _ _ _ h

theorem read_data_missing_country_code (f : RawFrame)
    (hmiss : "Country Code" ∉ f.header) :
    read_data f = .error (.keyError "Country Code") := by
  have hfind : f.header.findIdx? (fun c => c == "Country Code") = none := by
    rw [List.findIdx?_eq_none_iff]
    intro x hx
    simp only [beq_eq_false_iff_ne, ne_eq]
    exact fun heq => hmiss (heq ▸ hx)
  rw [read_data, dropColumn, hfind]

theorem read_data_missing_series_code (f : RawFrame)
    (hcc : "Country Code" ∈ f.header) (hmiss : "Series Code" ∉ f.header) :
    read_data f = .error (.keyError "Series Code") := by
  obtain ⟨i, hfi⟩ := findIdx?_some_of_mem f.header "Country Code" hcc
  have hstep : read_data f = read_data_stage1 (f.header.eraseIdx i)
      ((cleanedRows f).map fun r => r.eraseIdx i) := by
    rw [read_data, dropColumn_ok _ _ _ i hfi]
  have hnone : (f.header.eraseIdx i).findIdx? (fun c => c == "Series Code")
      = none := by
    rw [List.findIdx?_eq_none_iff]
    intro x hx
    simp only [beq_eq_false_iff_ne, ne_eq]
    exact fun hxe => hmiss (hxe ▸ List.mem_of_mem_eraseIdx hx)
  rw [hstep, read_data_stage1, dropColumn, hnone]

theorem read_data_missing_year (f : RawFrame)
    (hcc : "Country Code" ∈ f.header) (hsc : "Series Code" ∈ f.header)
    (hy : ∃ yc ∈ yearCols, yc ∉ f.header) :
    ∃ yc ∈ yearCols, read_data f = .error (.keyError yc) := by
  obtain ⟨yc0, hyc0, hyc0n⟩ := hy
  obtain ⟨i, hfi⟩ := findIdx?_some_of_mem f.header "Country Code" hcc
  have hstep1 : read_data f = read_data_stage1 (f.header.eraseIdx i)
      ((cleanedRows f).map fun r => r.eraseIdx i) := by
    rw [read_data, dropColumn_ok _ _ _ i hfi]
  have hsc1 : "Series Code" ∈ f.header.eraseIdx i :=
    mem_eraseIdx_of_ne f.header "Country Code" "Series Code" hsc (by decide)
      i hfi
  obtain ⟨i2, hfi2⟩ := findIdx?_some_of_mem _ "Series Code" hsc1
  have hstep2 : read_data_stage1 (f.header.eraseIdx i)
      ((cleanedRows f).map fun r => r.eraseIdx i) =
      read_data_stage2 ((f.header.eraseIdx i).eraseIdx i2)
        (((cleanedRows f).map fun r => r.eraseIdx i).map
          fun r => r.eraseIdx i2) := by
    rw [read_data_stage1, dropColumn_ok _ _ _ i2 hfi2]
  have hnot2 : yc0 ∉ (f.header.eraseIdx i).eraseIdx i2 := fun hc =>
    hyc0n (List.mem_of_mem_eraseIdx (List.mem_of_mem_eraseIdx hc))
  obtain ⟨e3, he3⟩ := yearIndices_fails _ yc0 hyc0 hnot2
  obtain ⟨yc1, hyc1, rfl⟩ := yearIndices_error _ _ he3
  refine ⟨yc1, hyc1, ?_⟩
  rw [hstep1, hstep2, read_data_stage2, he3]

/-! ## Claim C4 -/

/-- Counterexample to C4 as stated: an input that lacks the expected
`Country Code` column makes `read_data` fail with pandas' `KeyError`
(source line 47), not with a `DataFormatError`; no `DataFormatError` exists
anywhere in the code. -/
theorem read_data_missing_column_counterexample :
    read_data ⟨["Series Name", "Country Name", "Series Code", "1980"],
        [["CO2", "NGA", "X", "1"]]⟩ =
      .error (.keyError "Country Code") ∧
    (PyError.keyError "Country Code").isDataFormat = false :=
  ⟨rfl, rfl⟩

/-- **C4 (amended).** Loader error contract as the code implements it:
`read_data` never fails with the specification's `DataFormatError` — every
failure is the underlying library error, namely a `KeyError` naming one of
the expected columns (the dropped code columns, the melt id columns, or a
year column) or the `astype(float)` `ValueError` for an unparseable year
value; and a missing expected column does produce such a `KeyError`, in the
source's check order: a missing `Country Code` (then `Series Code`, then a
year column) fails with the corresponding `KeyError`. -/
theorem read_data_error_kinds (f : RawFrame) :
    (∀ e, read_data f = .error e →
      e.isDataFormat = false ∧
        ((∃ c ∈ expectedColumns, e = .keyError c) ∨
          (∃ s, e = .valueError
            ("could not convert string to float: " ++ s)))) ∧
    ("Country Code" ∉ f.header →
      read_data f = .error (.keyError "Country Code")) ∧
    ("Country Code" ∈ f.header → "Series Code" ∉ f.header →
      read_data f = .error (.keyError "Series Code")) ∧
    ("Country Code" ∈ f.header → "Series Code" ∈ f.header →
      (∃ yc ∈ yearCols, yc ∉ f.header) →
      ∃ yc ∈ yearCols, read_data f = .error (.keyError yc)) := by
  refine ⟨fun e he => ⟨?_, read_data_error_classified f e he⟩,
    read_data_missing_country_code f,
    read_data_missing_series_code f,
    read_data_missing_year f⟩
  rcases read_data_error_classified f e he with ⟨c, _, rfl⟩ | ⟨s, rfl⟩ <;> rfl

/-- Witness for C4 (amended), at an input whose header lacks
`Country Code`: it fails with exactly `KeyError 'Country Code'`, which is
not a `DataFormatError` and is classified as a `KeyError` on an expected
column. -/
theorem read_data_error_kinds_witness :
    read_data ⟨["Series Name"], []⟩ = .error (.keyError "Country Code") ∧
    (PyError.keyError "Country Code").isDataFormat = false ∧
    ((∃ c ∈ expectedColumns, PyError.keyError "Country Code" = .keyError c) ∨
      (∃ s, PyError.keyError "Country Code" =
        .valueError ("could not convert string to float: " ++ s))) := by
  have h := read_data_error_kinds ⟨["Series Name"], []⟩
  have h1 := h.2.1 (by decide)
  exact ⟨h1, (h.1 _ h1).1, (h.1 _ h1).2⟩

/-! ## Clustering (source lines 119-150)

`cluster_data` copies the frame, min-max normalizes its numeric columns
with `cluster_tools.scaler`, fits `KMeans(n_clusters, random_state=0)` and
attaches the integer labels as a `Cluster` column of the copy. -/

/-- A dataframe as the cluster step sees it: object (string) columns and
numeric columns — `select_dtypes(include=np.number)` keeps the latter. -/
structure DFrame where
  strHeader : List String
  strRows : List (List String)
  numHeader : List String
  numRows : List (List ℚ)
  deriving DecidableEq, Repr

/-- Number of features of a numeric matrix (length of its first row). -/
def width (X : List (List ℚ)) : Nat := (X.headD []).length

/-- Smallest entry of a column (0 for an empty one). -/
def colMin : List ℚ → ℚ
  | [] => 0
  | x :: xs => xs.foldl min x

/-- Largest entry of a column (0 for an empty one). -/
def colMax : List ℚ → ℚ
  | [] => 0
  | x :: xs => xs.foldl max x

/-- Column `j` of a numeric matrix. -/
def colOf (X : List (List ℚ)) (j : Nat) : List ℚ := X.map fun r => r.getD j 0

/-- The min-max normalized matrix: every column rescaled to [0,1] by its
observed minimum and maximum, constant columns mapping to 0. -/
def scaledMatrix (X : List (List ℚ)) : List (List ℚ) :=
  X.map fun r =>
    (List.range (width X)).map fun j =>
      if colMax (colOf X j) = colMin (colOf X j) then 0
      else (r.getD j 0 - colMin (colOf X j)) /
        (colMax (colOf X j) - colMin (colOf X j))

/-- Modelled from the spec: `cluster_tools.scaler` (cluster_tools.py is not
among the sources) — every column is linearly rescaled to [0,1] by its
observed minimum and maximum, a constant column maps to the constant 0, and
the per-column minimum and maximum vectors are returned so the transform is
invertible. -/
def scaler (X : List (List ℚ)) : List (List ℚ) × List ℚ × List ℚ :=
  (scaledMatrix X,
   (List.range (width X)).map fun j => colMin (colOf X j),
   (List.range (width X)).map fun j => colMax (colOf X j))

/-- Squared euclidean distance of two points. -/
def sqDist (a b : List ℚ) : ℚ := (List.zipWith (fun x y => (x - y) ^ 2) a b).sum

/-- Index of the smallest entry (first on ties, as sklearn's label
assignment takes the first nearest centroid). -/
def argminL : List ℚ → Nat
  | [] => 0
  | d :: ds =>
    match ds with
    | [] => 0
    | _ :: _ =>
      let j := argminL ds
      if d ≤ ds.getD j 0 then 0 else j + 1

/-- Nearest-centroid label of every data point. -/
def assignLabels (cs : List (List ℚ)) (X : List (List ℚ)) : List Nat :=
  X.map fun p => argminL (cs.map fun c => sqDist p c)

/-- Mean of a non-empty set of points. -/
def centroidMean (rs : List (List ℚ)) : List ℚ :=
  (List.range (width rs)).map fun j =>
    (rs.map fun r => r.getD j 0).sum / (rs.length : ℚ)

/-- One Lloyd step: every centroid moves to the mean of the points assigned
to it (an empty cluster keeps its centroid). -/
def updateCentroids (cs : List (List ℚ)) (X : List (List ℚ)) :
    List (List ℚ) :=
  let labels := assignLabels cs X
  (List.range cs.length).map fun j =>
    let members := (X.zip labels).filterMap fun pl =>
      if pl.2 = j then some pl.1 else none
    if members = [] then cs.getD j [] else centroidMean members

/-- Lloyd iteration with a fuel budget (sklearn's default `max_iter=300`),
stopping at a fixed point. -/
def lloyd : Nat → List (List ℚ) → List (List ℚ) → List (List ℚ)
  | 0, cs, _ => cs
  | n + 1, cs, X =>
    if updateCentroids cs X = cs then cs else lloyd n (updateCentroids cs X) X

/-- Seed-driven choice of `k` initial centroids among the data points — a
deterministic stand-in for sklearn's seeded k-means++ initialization. -/
def initCentroids (seed : Nat) (k : Nat) (X : List (List ℚ)) :
    List (List ℚ) :=
  (X.rotate (seed % X.length)).take k

/-- `KMeans(n_clusters=k, random_state=seed).fit(X).labels_` including
sklearn's validation, in its order: the parameter check (`n_clusters` must
be an integer ≥ 1, `InvalidParameterError` otherwise), then `check_array`
(rectangular input, at least one sample, at least one feature, `ValueError`
otherwise), then `n_samples ≥ n_clusters` (`ValueError` otherwise).
`k` is `ℚ` so that a non-integer cluster count is representable. -/
def kmeansFit (seed : Nat) (k : ℚ) (X : List (List ℚ)) :
    Except PyError (List Nat) :=
  if ¬(k.den = 1 ∧ 1 ≤ k) then
    .error (.invalidParameterError
      "The n_clusters parameter of KMeans must be an int in the range [1, inf)")
  else if ¬(∀ r ∈ X, r.length = width X) then
    .error (.valueError "setting an array element with a sequence")
  else if X.length = 0 then
    .error (.valueError "Found array with 0 sample(s)")
  else if width X = 0 then
    .error (.valueError "Found array with 0 feature(s)")
  else if (X.length : ℚ) < k then
    .error (.valueError "n_samples should be >= n_clusters")
  else
    .ok (assignLabels (lloyd 300 (initCentroids seed k.num.toNat X) X) X)

/-- `cluster_data` with the random seed explicit: copy the frame, scale the
numeric part, fit k-means, attach the labels as the `Cluster` column of the
copy; returns the labelled copy (with its label list) and the normalized
data, as the source returns `cluster_df, normalized_data`. -/
def clusterDataSeeded (seed : Nat) (df : DFrame) (k : ℚ) :
    Except PyError ((DFrame × List Nat) × List (List ℚ)) :=
  match kmeansFit seed k (scaler df.numRows).1 with
  | .error e => .error e
  | .ok labels =>
    .ok ((⟨df.strHeader, df.strRows, df.numHeader ++ ["Cluster"],
          List.zipWith (fun r l => r ++ [(l : ℚ)]) df.numRows labels⟩,
         labels), (scaler df.numRows).1)

/-- `cluster_data(df, n_clusters)` (source lines 119-148): the script fixes
`random_state=0`. -/
def cluster_data (df : DFrame) (k : ℚ) :
    Except PyError ((DFrame × List Nat) × List (List ℚ)) :=
  clusterDataSeeded 0 df k

theorem argminL_lt (l : List ℚ) (h : l ≠ []) : argminL l < l.length := by
  induction l with
  | nil => exact absurd rfl h
  | cons d ds ih =>
    rcases ds with _ | ⟨e, es⟩
    · simp [argminL]
    · rw [argminL]
      split
      · simp
      · have := ih (by simp)
        simp only [List.length_cons] at this ⊢
        omega

theorem assignLabels_lt (cs X : List (List ℚ)) (hcs : cs ≠ [])
    (l : Nat) (hl : l ∈ assignLabels cs X) : l < cs.length := by
  obtain ⟨p, _, rfl⟩ := List.mem_map.mp hl
  have hne : cs.map (fun c => sqDist p c) ≠ [] := by
    simpa using hcs
  simpa using argminL_lt _ hne

theorem updateCentroids_length (cs X : List (List ℚ)) :
    (updateCentroids cs X).length = cs.length := by
  simp [updateCentroids]

theorem lloyd_length (n : Nat) (cs X : List (List ℚ)) :
    (lloyd n cs X).length = cs.length := by
  induction n generalizing cs with
  | zero => rfl
  | succ m ih =>
    rw [lloyd]
    split
    next => rfl
    next => rw [ih, updateCentroids_length]

theorem initCentroids_length (seed k : Nat) (X : List (List ℚ))
    (h : k ≤ X.length) : (initCentroids seed k X).length = k := by
  simp [initCentroids, List.length_rotate]
  omega

theorem scaledMatrix_length (X : List (List ℚ)) :
    (scaledMatrix X).length = X.length := by
  simp [scaledMatrix]

theorem scaledMatrix_row_length (X : List (List ℚ)) :
    ∀ r ∈ scaledMatrix X, r.length = width X := by
  intro r hr
  obtain ⟨y, _, rfl⟩ := List.mem_map.mp hr
  simp

theorem scaledMatrix_width (X : List (List ℚ)) (h : X ≠ []) :
    width (scaledMatrix X) = width X := by
  rcases X with _ | ⟨x, xs⟩
  · exact absurd rfl h
  · simp [scaledMatrix, width]

theorem scaledMatrix_rect (X : List (List ℚ)) :
    ∀ r ∈ scaledMatrix X, r.length = width (scaledMatrix X) := by
  intro r hr
  rcases X with _ | ⟨x, xs⟩
  · simp [scaledMatrix] at hr
  · rw [scaledMatrix_width _ (by simp)]
    exact scaledMatrix_row_length _ r hr

/-- An integral rational is its numerator. -/
theorem rat_den_one_cast (k : ℚ) (hden : k.den = 1) : (k.num : ℚ) = k := by
  have := Rat.num_div_den k
  rw [hden] at this
  simpa using this

/-- The range of the labels a successful `kmeansFit` returns. -/
theorem kmeansFit_label_range (seed : Nat) (k : ℚ) (X : List (List ℚ))
    (labels : List Nat) (h : kmeansFit seed k X = .ok labels) :
    ∀ l ∈ labels, (l : ℚ) < k ∧ (k = 1 → l = 0) := by
  rw [kmeansFit] at h
  split at h
  next => exact Except.noConfusion h
  next hc1 =>
    split at h
    next => exact Except.noConfusion h
    next =>
      split at h
      next => exact Except.noConfusion h
      next hc3 =>
        split at h
        next => exact Except.noConfusion h
        next =>
          split at h
          next => exact Except.noConfusion h
          next hc5 =>
            obtain ⟨hden, hk1⟩ := not_not.mp hc1
            have hnumcast : (k.num : ℚ) = k := rat_den_one_cast k hden
            have hnum1 : (1 : ℤ) ≤ k.num := by
              have : (1 : ℚ) ≤ (k.num : ℚ) := by rw [hnumcast]; exact hk1
              exact_mod_cast this
            have htn : ((k.num.toNat : ℤ) : ℚ) = k := by
              rw [Int.toNat_of_nonneg (by omega), hnumcast]
            have hkQ : ((k.num.toNat : ℕ) : ℚ) = k := by
              exact_mod_cast htn
            have hkle : k.num.toNat ≤ X.length := by
              have hq : k ≤ (X.length : ℚ) := not_lt.mp hc5
              have : ((k.num.toNat : ℕ) : ℚ) ≤ (X.length : ℚ) := by
                rw [hkQ]; exact hq
              exact_mod_cast this
            have hlen : (lloyd 300 (initCentroids seed k.num.toNat X) X).length =
                k.num.toNat := by
              rw [lloyd_length, initCentroids_length _ _ _ hkle]
            have hpos : 1 ≤ k.num.toNat := by omega
            have hne : lloyd 300 (initCentroids seed k.num.toNat X) X ≠ [] := by
              intro hc
              rw [hc] at hlen
              simp at hlen
              omega
            intro l hl
            have hlabels : labels =
                assignLabels (lloyd 300 (initCentroids seed k.num.toNat X) X) X :=
              (Except.ok.inj h).symm
            rw [hlabels] at hl
            have hlt : l < k.num.toNat := by
              have := assignLabels_lt _ _ hne l hl
              omega
            constructor
            · have : (l : ℚ) < ((k.num.toNat : ℕ) : ℚ) := by exact_mod_cast hlt
              rwa [hkQ] at this
            · intro hkone
              have hone : ((k.num.toNat : ℕ) : ℚ) = ((1 : ℕ) : ℚ) := by
                rw [hkQ, hkone]
                norm_num
              have : k.num.toNat = 1 := Nat.cast_inj.mp hone
              omega

/-! ## Claim C8 -/

/-- A tiny two-row, one-indicator frame used in the concrete witnesses. -/
def sampleFrame : DFrame :=
  ⟨["Year", "Country Name"], [["1980", "A"], ["1980", "B"]], ["CO2"], [[0], [1]]⟩

/-- A three-row frame whose numeric rows are all identical. -/
def dupFrame : DFrame :=
  ⟨["Year", "Country Name"], [["1980", "A"], ["1980", "B"], ["1985", "A"]],
   ["CO2"], [[0], [0], [0]]⟩

/-- **C8.** Cluster label range: every label in the `Cluster` column that
`cluster_data` (source lines 137-146) attaches is an integer in `[0, k)`;
in particular for `k = 1` every row receives label 0. -/
theorem cluster_data_label_range (df : DFrame) (k : ℚ)
    (out : (DFrame × List Nat) × List (List ℚ))
    (h : cluster_data df k = .ok out) :
    ∀ l ∈ out.1.2, (l : ℚ) < k ∧ (k = 1 → l = 0) := by
  rw [cluster_data, clusterDataSeeded] at h
  split at h
  next => exact Except.noConfusion h
  next labels heq =>
    have hout : out.1.2 = labels := by rw [← Except.ok.inj h]
    rw [hout]
    exact kmeansFit_label_range 0 k _ labels heq

theorem sample_scaled :
    (scaler sampleFrame.numRows).1 = [[(0 : ℚ)], [1]] := by
  norm_num [scaler, scaledMatrix, colOf, colMin, colMax, width, sampleFrame,
    min_def, max_def, List.range_succ, List.range_zero]

theorem sample_kmeans : kmeansFit 0 1 [[(0 : ℚ)], [1]] = .ok [0, 0] := by
  have hupd1 : updateCentroids [[(0 : ℚ)]] [[0], [1]] = [[1 / 2]] := by
    norm_num [updateCentroids, assignLabels, argminL, sqDist, centroidMean,
      width, colOf, List.range_succ, List.range_zero, Option.some_ne_none,
      List.filterMap_cons, List.filterMap_nil, List.cons_ne_nil]
  have hupd2 : updateCentroids [[(1 / 2 : ℚ)]] [[0], [1]] = [[1 / 2]] := by
    norm_num [updateCentroids, assignLabels, argminL, sqDist, centroidMean,
      width, colOf, List.range_succ, List.range_zero, Option.some_ne_none,
      List.filterMap_cons, List.filterMap_nil, List.cons_ne_nil]
  have hlloyd : lloyd 300 [[(0 : ℚ)]] [[0], [1]] = [[1 / 2]] := by
    rw [show (300 : Nat) = 299 + 1 from rfl, lloyd, hupd1,
      if_neg (by norm_num), show (299 : Nat) = 298 + 1 from rfl, lloyd, hupd2,
      if_pos rfl]
  rw [kmeansFit,
    if_neg (not_not_intro ⟨rfl, le_refl 1⟩),
    if_neg (not_not_intro (by decide)),
    if_neg (by decide),
    if_neg (by decide),
    if_neg (by norm_num),
    show (1 : ℚ).num.toNat = 1 from rfl,
    show initCentroids 0 1 [[(0 : ℚ)], [1]] = [[0]] from rfl,
    hlloyd,
    show assignLabels [[(1 / 2 : ℚ)]] [[0], [1]] = [0, 0] from rfl]

/-- The concrete output of `cluster_data` on the sample frame with `k = 1`:
the labelled copy (labels `[0, 0]`) and the normalized data. -/
def sampleOut : (DFrame × List Nat) × List (List ℚ) :=
  ((⟨["Year", "Country Name"], [["1980", "A"], ["1980", "B"]],
    ["CO2", "Cluster"], [[0, 0], [1, 0]]⟩, [0, 0]), [[0], [1]])

/-- Witness for C8: on the two-row sample frame with `k = 1`,
`cluster_data` succeeds with labels `[0, 0]`, both `< 1` and `0`. -/
theorem cluster_data_label_range_witness :
    cluster_data sampleFrame 1 = .ok sampleOut ∧
    ∀ l ∈ sampleOut.1.2, (l : ℚ) < 1 ∧ ((1 : ℚ) = 1 → l = 0) := by
  have hok : cluster_data sampleFrame 1 = .ok sampleOut := by
    rw [cluster_data, clusterDataSeeded, sample_scaled, sample_kmeans, sampleOut]
    norm_num [sampleFrame, List.zipWith]
  exact ⟨hok, cluster_data_label_range sampleFrame 1 sampleOut hok⟩

/-! ## Claim C5 -/

/-- Is this the `InvalidParameterError` kind? -/
def PyError.isInvalidParameter : PyError → Bool
  | .invalidParameterError _ => true
  | _ => false

/-- Counterexample to C5 as stated: requesting `k = 3` clusters from a
2-row (2-distinct-row) matrix is out of range, but `cluster_data` fails
with sklearn's `ValueError` (`n_samples >= n_clusters` check in
`KMeans.fit`), not with an `InvalidParameterError`; and requesting `k = 2`
from 3 rows with only 1 distinct row — also out of range per the claim —
does not fail at all. -/
theorem cluster_data_count_counterexample :
    cluster_data sampleFrame 3 =
      .error (.valueError "n_samples should be >= n_clusters") ∧
    (PyError.valueError "n_samples should be >= n_clusters").isInvalidParameter
      = false ∧
    (cluster_data dupFrame 2).isOk = true := by
  refine ⟨?_, rfl, ?_⟩
  · have hlen : (scaler sampleFrame.numRows).1.length = 2 := by
      simp [scaler, scaledMatrix, sampleFrame]
    have hrect : ∀ r ∈ (scaler sampleFrame.numRows).1,
        r.length = width (scaler sampleFrame.numRows).1 :=
      scaledMatrix_rect sampleFrame.numRows
    rw [cluster_data, clusterDataSeeded, kmeansFit,
      if_neg (not_not_intro ⟨rfl, by norm_num⟩),
      if_neg (not_not_intro hrect),
      if_neg (by rw [hlen]; decide),
      if_neg (by decide),
      if_pos (by rw [hlen]; norm_num)]
  · have hlen : (scaler dupFrame.numRows).1.length = 3 := by
      simp [scaler, scaledMatrix, dupFrame]
    have hrect : ∀ r ∈ (scaler dupFrame.numRows).1,
        r.length = width (scaler dupFrame.numRows).1 :=
      scaledMatrix_rect dupFrame.numRows
    rw [cluster_data, clusterDataSeeded, kmeansFit,
      if_neg (not_not_intro ⟨rfl, by norm_num⟩),
      if_neg (not_not_intro hrect),
      if_neg (by rw [hlen]; decide),
      if_neg (by decide),
      if_neg (by rw [hlen]; norm_num)]
    rfl

/-- **C5 (amended).** Cluster-count validation as the code implements it,
for a well-formed numeric matrix (non-empty, at least one feature): a `k`
that is not a positive integer fails with sklearn's
`InvalidParameterError`; a positive integer `k` larger than the number of
rows (distinct or not — sklearn compares against `n_samples`, not distinct
rows) fails with a `ValueError`; a positive integer `k` at most the number
of rows succeeds. -/
theorem cluster_data_validation (df : DFrame) (k : ℚ)
    (hrows : df.numRows ≠ []) (hw : width df.numRows ≠ 0) :
    (¬(k.den = 1 ∧ 1 ≤ k) →
      cluster_data df k = .error (.invalidParameterError
        "The n_clusters parameter of KMeans must be an int in the range [1, inf)")) ∧
    (k.den = 1 ∧ 1 ≤ k → (df.numRows.length : ℚ) < k →
      cluster_data df k = .error
        (.valueError "n_samples should be >= n_clusters")) ∧
    (k.den = 1 ∧ 1 ≤ k → k ≤ (df.numRows.length : ℚ) →
      ∃ out, cluster_data df k = .ok out) := by
  have hfst : (scaler df.numRows).1 = scaledMatrix df.numRows := rfl
  have hlen : (scaler df.numRows).1.length = df.numRows.length := by
    rw [hfst, scaledMatrix_length]
  have hrect : ∀ r ∈ (scaler df.numRows).1,
      r.length = width (scaler df.numRows).1 := by
    rw [hfst]; exact scaledMatrix_rect df.numRows
  have hwidth : width (scaler df.numRows).1 ≠ 0 := by
    rw [hfst, scaledMatrix_width _ hrows]; exact hw
  have hlen0 : (scaler df.numRows).1.length ≠ 0 := by
    rw [hlen]
    intro hc
    exact hrows (List.length_eq_zero.mp hc)
  refine ⟨?_, ?_, ?_⟩
  · intro hbad
    rw [cluster_data, clusterDataSeeded, kmeansFit, if_pos hbad]
  · intro hok hlt
    rw [cluster_data, clusterDataSeeded, kmeansFit, if_neg (not_not_intro hok),
      if_neg (not_not_intro hrect), if_neg hlen0, if_neg hwidth,
      if_pos (by rw [hlen]; exact hlt)]
  · intro hok hle
    rw [cluster_data, clusterDataSeeded, kmeansFit, if_neg (not_not_intro hok),
      if_neg (not_not_intro hrect), if_neg hlen0, if_neg hwidth,
      if_neg (not_lt.mpr (by rw [hlen]; exact hle))]
    exact ⟨_, rfl⟩

/-- Witness for C5 (amended), at the sample frame with a non-integer
`k = 5/2`. -/
theorem cluster_data_validation_witness :
    (sampleFrame.numRows ≠ [] ∧ width sampleFrame.numRows ≠ 0) ∧
    ((¬((5 / 2 : ℚ).den = 1 ∧ 1 ≤ (5 / 2 : ℚ)) →
      cluster_data sampleFrame (5 / 2) = .error (.invalidParameterError
        "The n_clusters parameter of KMeans must be an int in the range [1, inf)")) ∧
    ((5 / 2 : ℚ).den = 1 ∧ 1 ≤ (5 / 2 : ℚ) →
        (sampleFrame.numRows.length : ℚ) < 5 / 2 →
      cluster_data sampleFrame (5 / 2) = .error
        (.valueError "n_samples should be >= n_clusters")) ∧
    ((5 / 2 : ℚ).den = 1 ∧ 1 ≤ (5 / 2 : ℚ) →
        (5 / 2 : ℚ) ≤ (sampleFrame.numRows.length : ℚ) →
      ∃ out, cluster_data sampleFrame (5 / 2) = .ok out)) :=
  ⟨⟨by decide, by decide⟩,
   cluster_data_validation sampleFrame (5 / 2) (by decide) (by decide)⟩

/-! ## Claim C9 -/

/-- **C9.** Clustering determinism: with the same fixed random seed, two
runs of the cluster engine on identical input produce identical results —
and `cluster_data` itself always runs with the fixed seed 0
(`random_state=0`, source line 137), so two of its runs coincide. -/
theorem cluster_data_deterministic (df : DFrame) (k : ℚ) (s₁ s₂ : Nat)
    (h : s₁ = s₂) :
    clusterDataSeeded s₁ df k = clusterDataSeeded s₂ df k ∧
      cluster_data df k = clusterDataSeeded 0 df k := by
  subst h
  exact ⟨rfl, rfl⟩

/-- Witness for C9 at the sample frame, seed 0 and the script's default
`n_clusters=4`. -/
theorem cluster_data_deterministic_witness :
    (0 : Nat) = 0 ∧
    (clusterDataSeeded 0 sampleFrame 4 = clusterDataSeeded 0 sampleFrame 4 ∧
      cluster_data sampleFrame 4 = clusterDataSeeded 0 sampleFrame 4) :=
  ⟨rfl, cluster_data_deterministic sampleFrame 4 0 0 rfl⟩

/-! ## Curve fitting with error propagation (source lines 197-261)

`fit_model_with_errors` fits `func` by `scipy.optimize.curve_fit` and
`y = a + b·x` by statsmodels OLS, and builds two confidence bands: the
curve-fit band is prediction ± `error_prop`'s sigma, the OLS band is the
mean-prediction interval prediction ± t·se.  The optimizer itself is the
boundary of the embedding: on a successful fit its outputs `popt`, `pcov`
are inputs here, and the script's floating point arithmetic is idealised
over `ℝ` (hence this section is noncomputable: `Real.sqrt` and real
division carry no algorithm). -/

noncomputable section

/-- Dot product of two real vectors. -/
def dotR (a b : List ℝ) : ℝ := (List.zipWith (fun u v => u * v) a b).sum

/-- The quadratic form `J·S·Jᵗ` of a row vector and a matrix. -/
def quadForm (J : List ℝ) (S : List (List ℝ)) : ℝ :=
  dotR J (S.map fun row => dotR row J)

/-- Modelled from the spec: `errors.error_prop` (errors.py is not among the
sources) — propagates the parameter covariance through the Jacobian of the
fitted function, giving the standard error of the prediction
`sigma(x) = sqrt(J·Σ·Jᵗ)` at each x; the numerical differentiation of
`func` is abstracted as the supplied Jacobian `jac` evaluated at the fitted
parameters. -/
def error_prop (x : List ℝ) (jac : List ℝ → ℝ → List ℝ) (popt : List ℝ)
    (pcov : List (List ℝ)) : List ℝ :=
  x.map fun t => Real.sqrt (quadForm (jac popt t) pcov)

/-- `linear_function(x, a, b) = a * x + b` (source lines 248-249). -/
def linear_function (x a b : ℝ) : ℝ := a * x + b

/-- Mean of a list of reals. -/
def meanR (l : List ℝ) : ℝ := l.sum / l.length

/-- Centered sum of squares of the regressor. -/
def sxx (x : List ℝ) : ℝ := (x.map fun t => (t - meanR x) ^ 2).sum

/-- OLS slope of `y = a + b·x` (with explicit intercept, as
`sm.add_constant` provides). -/
def olsSlope (x y : List ℝ) : ℝ :=
  (List.zipWith (fun t u => (t - meanR x) * (u - meanR y)) x y).sum / sxx x

/-- OLS intercept. -/
def olsIntercept (x y : List ℝ) : ℝ := meanR y - olsSlope x y * meanR x

/-- OLS fitted values at the sample points (`model_ols.predict(X_ols)`). -/
def olsPred (x y : List ℝ) : List ℝ :=
  x.map fun t => olsIntercept x y + olsSlope x y * t

/-- Residual variance estimate `s² = SSE / (n - 2)`. -/
def olsSigma2 (x y : List ℝ) : ℝ :=
  (List.zipWith (fun t u => (u - (olsIntercept x y + olsSlope x y * t)) ^ 2)
    x y).sum / ((x.length : ℝ) - 2)

/-- Standard error of the OLS mean prediction at each sample point,
`se(x₀) = sqrt(s²·(1/n + (x₀ - x̄)²/Sxx))`, as
`model_ols.get_prediction(X_ols)` computes it. -/
def olsSeMean (x y : List ℝ) : List ℝ :=
  x.map fun t =>
    Real.sqrt (olsSigma2 x y * (1 / (x.length : ℝ) + (t - meanR x) ^ 2 / sxx x))

/-- The eight values `fit_model_with_errors` returns (source lines
243-245). -/
structure FitOutput where
  popt : List ℝ
  pcov : List (List ℝ)
  predictionsCurveFit : List ℝ
  predictionsOls : List ℝ
  lowerboundCurveFit : List ℝ
  upperboundCurveFit : List ℝ
  lowerboundOls : List ℝ
  upperboundOls : List ℝ

/-- `fit_model_with_errors` (source lines 198-245) after a successful
`curve_fit`: `popt`/`pcov` are the optimizer's outputs, `jac` the Jacobian
of `func` used by `error_prop`, and `tcrit` the Student-t critical value
statsmodels uses for the two-sided mean-prediction interval at the given
significance level (positive for any `alpha < 1`; the curve-fit band uses
no such factor — source lines 236-237). -/
def fit_model_with_errors (x y : List ℝ) (func : List ℝ → ℝ → ℝ)
    (jac : List ℝ → ℝ → List ℝ) (popt : List ℝ) (pcov : List (List ℝ))
    (tcrit : ℝ) : FitOutput where
  popt := popt
  pcov := pcov
  predictionsCurveFit := x.map (func popt)
  predictionsOls := olsPred x y
  lowerboundCurveFit :=
    List.zipWith (fun p s => p - s) (x.map (func popt))
      (error_prop x jac popt pcov)
  upperboundCurveFit :=
    List.zipWith (fun p s => p + s) (x.map (func popt))
      (error_prop x jac popt pcov)
  lowerboundOls :=
    List.zipWith (fun p s => p - tcrit * s) (olsPred x y) (olsSeMean x y)
  upperboundOls :=
    List.zipWith (fun p s => p + tcrit * s) (olsPred x y) (olsSeMean x y)

/-! ## Claim C6 -/

/-- **C6.** Nonlinear-fit confidence band formula: at every sample point
the band returned by `fit_model_with_errors` is exactly
`prediction(x) ± sigma(x)` with `sigma(x) = sqrt(J·Σ·Jᵗ)` (Σ the parameter
covariance, J the Jacobian of the fitted function at x); no t or z
critical value scales it — `tcrit` does not occur in the band. -/
theorem fit_model_band_formula (x y : List ℝ) (func : List ℝ → ℝ → ℝ)
    (jac : List ℝ → ℝ → List ℝ) (popt : List ℝ) (pcov : List (List ℝ))
    (tcrit : ℝ) (i : Nat) (hi : i < x.length) :
    (fit_model_with_errors x y func jac popt pcov tcrit).lowerboundCurveFit[i]? =
      some (func popt x[i] - Real.sqrt (quadForm (jac popt x[i]) pcov)) ∧
    (fit_model_with_errors x y func jac popt pcov tcrit).upperboundCurveFit[i]? =
      some (func popt x[i] + Real.sqrt (quadForm (jac popt x[i]) pcov)) := by
  constructor <;>
  · simp only [fit_model_with_errors, error_prop, List.getElem?_zipWith,
      List.getElem?_map, List.getElem?_eq_getElem hi]
    rfl

/-- The fit output at the concrete sample: `x = y = [0, 1]`, the linear
model with its Jacobian, `popt = [1, 0]`, identity covariance,
`tcrit = 2`. -/
def fitSample : FitOutput :=
  fit_model_with_errors [(0 : ℝ), 1] [(0 : ℝ), 1]
    (fun p t => linear_function t (p.getD 0 0) (p.getD 1 0))
    (fun _ t => [t, 1]) [1, 0] [[1, 0], [0, 1]] 2

/-- Witness for C6 at the concrete sample, `i = 0`. -/
theorem fit_model_band_formula_witness :
    (0 : Nat) < 2 ∧
    (fitSample.lowerboundCurveFit[0]? =
        some (linear_function 0 1 0 -
          Real.sqrt (quadForm [(0 : ℝ), 1] [[1, 0], [0, 1]])) ∧
      fitSample.upperboundCurveFit[0]? =
        some (linear_function 0 1 0 +
          Real.sqrt (quadForm [(0 : ℝ), 1] [[1, 0], [0, 1]]))) :=
  ⟨by decide,
   fit_model_band_formula [(0 : ℝ), 1] [(0 : ℝ), 1]
     (fun p t => linear_function t (p.getD 0 0) (p.getD 1 0))
     (fun _ t => [t, 1]) [1, 0] [[1, 0], [0, 1]] 2 0 (by decide)⟩

/-! ## Claim C7 -/

theorem error_prop_nonneg (x : List ℝ) (jac : List ℝ → ℝ → List ℝ)
    (popt : List ℝ) (pcov : List (List ℝ)) :
    ∀ s ∈ error_prop x jac popt pcov, 0 ≤ s := by
  intro s hs
  obtain ⟨t, _, rfl⟩ := List.mem_map.mp hs
  exact Real.sqrt_nonneg _

theorem olsSeMean_nonneg (x y : List ℝ) : ∀ s ∈ olsSeMean x y, 0 ≤ s := by
  intro s hs
  obtain ⟨t, _, rfl⟩ := List.mem_map.mp hs
  exact Real.sqrt_nonneg _

theorem forall₂_sub_scaled_le (ps ss : List ℝ) (c : ℝ) (hc : 0 ≤ c)
    (hss : ∀ s ∈ ss, 0 ≤ s) (hlen : ps.length ≤ ss.length) :
    List.Forall₂ (fun u v => u ≤ v)
      (List.zipWith (fun p s => p - c * s) ps ss) ps := by
  induction ps generalizing ss with
  | nil => simp
  | cons p ps ih =>
    rcases ss with _ | ⟨s, ss⟩
    · simp at hlen
    · refine List.Forall₂.cons ?_
        (ih ss (fun u hu => hss u (List.mem_cons_of_mem _ hu)) (by simpa using hlen))
      have h0 : 0 ≤ c * s := mul_nonneg hc (hss s (List.mem_cons_self _ _))
      show p - c * s ≤ p
      linarith

theorem forall₂_le_add_scaled (ps ss : List ℝ) (c : ℝ) (hc : 0 ≤ c)
    (hss : ∀ s ∈ ss, 0 ≤ s) (hlen : ps.length ≤ ss.length) :
    List.Forall₂ (fun u v => u ≤ v) ps
      (List.zipWith (fun p s => p + c * s) ps ss) := by
  induction ps generalizing ss with
  | nil => simp
  | cons p ps ih =>
    rcases ss with _ | ⟨s, ss⟩
    · simp at hlen
    · refine List.Forall₂.cons ?_
        (ih ss (fun u hu => hss u (List.mem_cons_of_mem _ hu)) (by simpa using hlen))
      have h0 : 0 ≤ c * s := mul_nonneg hc (hss s (List.mem_cons_self _ _))
      show p ≤ p + c * s
      linarith

theorem forall₂_sub_le (ps ss : List ℝ) (hss : ∀ s ∈ ss, 0 ≤ s)
    (hlen : ps.length ≤ ss.length) :
    List.Forall₂ (fun u v => u ≤ v)
      (List.zipWith (fun p s => p - s) ps ss) ps := by
  induction ps generalizing ss with
  | nil => simp
  | cons p ps ih =>
    rcases ss with _ | ⟨s, ss⟩
    · simp at hlen
    · refine List.Forall₂.cons ?_
        (ih ss (fun u hu => hss u (List.mem_cons_of_mem _ hu)) (by simpa using hlen))
      have h0 : 0 ≤ s := hss s (List.mem_cons_self _ _)
      show p - s ≤ p
      linarith

theorem forall₂_le_add (ps ss : List ℝ) (hss : ∀ s ∈ ss, 0 ≤ s)
    (hlen : ps.length ≤ ss.length) :
    List.Forall₂ (fun u v => u ≤ v) ps
      (List.zipWith (fun p s => p + s) ps ss) := by
  induction ps generalizing ss with
  | nil => simp
  | cons p ps ih =>
    rcases ss with _ | ⟨s, ss⟩
    · simp at hlen
    · refine List.Forall₂.cons ?_
        (ih ss (fun u hu => hss u (List.mem_cons_of_mem _ hu)) (by simpa using hlen))
      have h0 : 0 ≤ s := hss s (List.mem_cons_self _ _)
      show p ≤ p + s
      linarith

/-- **C7.** Confidence band ordering: at every sample point,
`lowerbound ≤ prediction ≤ upperbound`, for the nonlinear curve-fit band
(whose half-width is a square root, hence nonnegative) and for the OLS band
(whose half-width is a nonnegative critical value times a square root). -/
theorem fit_model_band_ordering (x y : List ℝ) (func : List ℝ → ℝ → ℝ)
    (jac : List ℝ → ℝ → List ℝ) (popt : List ℝ) (pcov : List (List ℝ))
    (tcrit : ℝ) (htc : 0 ≤ tcrit) :
    List.Forall₂ (fun u v => u ≤ v)
      (fit_model_with_errors x y func jac popt pcov tcrit).lowerboundCurveFit
      (fit_model_with_errors x y func jac popt pcov tcrit).predictionsCurveFit ∧
    List.Forall₂ (fun u v => u ≤ v)
      (fit_model_with_errors x y func jac popt pcov tcrit).predictionsCurveFit
      (fit_model_with_errors x y func jac popt pcov tcrit).upperboundCurveFit ∧
    List.Forall₂ (fun u v => u ≤ v)
      (fit_model_with_errors x y func jac popt pcov tcrit).lowerboundOls
      (fit_model_with_errors x y func jac popt pcov tcrit).predictionsOls ∧
    List.Forall₂ (fun u v => u ≤ v)
      (fit_model_with_errors x y func jac popt pcov tcrit).predictionsOls
      (fit_model_with_errors x y func jac popt pcov tcrit).upperboundOls := by
  refine ⟨?_, ?_, ?_, ?_⟩
  · exact forall₂_sub_le _ _ (error_prop_nonneg x jac popt pcov)
      (by simp [error_prop])
  · exact forall₂_le_add _ _ (error_prop_nonneg x jac popt pcov)
      (by simp [fit_model_with_errors, error_prop])
  · exact forall₂_sub_scaled_le _ _ tcrit htc (olsSeMean_nonneg x y)
      (by simp [olsPred, olsSeMean])
  · exact forall₂_le_add_scaled _ _ tcrit htc (olsSeMean_nonneg x y)
      (by simp [fit_model_with_errors, olsPred, olsSeMean])

/-- Witness for C7 at the concrete sample. -/
theorem fit_model_band_ordering_witness :
    (0 : ℝ) ≤ 2 ∧
    (List.Forall₂ (fun u v => u ≤ v)
        fitSample.lowerboundCurveFit fitSample.predictionsCurveFit ∧
      List.Forall₂ (fun u v => u ≤ v)
        fitSample.predictionsCurveFit fitSample.upperboundCurveFit ∧
      List.Forall₂ (fun u v => u ≤ v)
        fitSample.lowerboundOls fitSample.predictionsOls ∧
      List.Forall₂ (fun u v => u ≤ v)
        fitSample.predictionsOls fitSample.upperboundOls) :=
  ⟨by norm_num,
   fit_model_band_ordering [(0 : ℝ), 1] [(0 : ℝ), 1]
     (fun p t => linear_function t (p.getD 0 0) (p.getD 1 0))
     (fun _ t => [t, 1]) [1, 0] [[1, 0], [0, 1]] 2 (by norm_num)⟩

end

/-! ## Non-mutation of inputs (source lines 79-113 and 119-150)

Python passes dataframes by reference, so "does not mutate its inputs" is a
statement about the heap.  The heap is modelled as a list of frames and a
function receives the index of its argument frame: every write in
`visualize` targets `plot_data`, the `.copy()` of a boolean-indexing result
(both fresh frames), and every write in `cluster_data` targets
`cluster_df = df.copy()`; the embedding allocates the copies at fresh
indices (appended) and mutates only those, so the argument's slot must come
through unchanged. -/

/-- `data_frame[data_frame['Year'] == '2020']`: the rows whose Year cell is
`'2020'` (a fresh frame — pandas boolean indexing returns a copy — and the
script then calls `.copy()` on it besides). -/
def filterYear2020 (df : DFrame) : DFrame :=
  let yi := df.strHeader.findIdx (fun c => c == "Year")
  let keep := (List.range df.strRows.length).filter
    (fun i => (df.strRows.getD i []).getD yi "" == "2020")
  ⟨df.strHeader, keep.map (fun i => df.strRows.getD i []),
   df.numHeader, keep.map (fun i => df.numRows.getD i [])⟩

/-- `series.rank(ascending=False)`: pandas average rank, descending — one
plus the number of strictly greater entries, plus half the excess tie
count. -/
def rankDesc (col : List ℚ) : List ℚ :=
  col.map fun v => (col.countP (fun u => decide (v < u)) : ℚ) + 1 +
    ((col.countP (fun u => decide (u = v)) : ℚ) - 1) / 2

/-- `plot_data.loc[:, 'Rank'] = plot_data[indicator].rank(ascending=False)`:
a write to the (copied) plot frame. -/
def addRank (df : DFrame) (ind : String) : DFrame :=
  let ii := df.numHeader.findIdx (fun c => c == ind)
  ⟨df.strHeader, df.strRows, df.numHeader ++ ["Rank"],
   List.zipWith (fun row q => row ++ [q]) df.numRows
     (rankDesc (df.numRows.map fun row => row.getD ii 0))⟩

/-- `plot_data.sort_values('Rank').head(10)`: rows sorted by the Rank
column (the last numeric column), first ten kept. -/
def sortHead10 (df : DFrame) : DFrame :=
  let sorted := (df.strRows.zip df.numRows).mergeSort
    (fun a b => decide (a.2.getLast?.getD 0 ≤ b.2.getLast?.getD 0))
  ⟨df.strHeader, (sorted.take 10).map (fun p => p.1),
   df.numHeader, (sorted.take 10).map (fun p => p.2)⟩

/-- The plot frame one loop iteration of `visualize` builds from the input
frame (source lines 89-96): filter to 2020, copy, rank, sort, head 10. -/
def plotFrame (df : DFrame) (ind : String) : DFrame :=
  sortHead10 (addRank (filterYear2020 df) ind)

/-- `visualize(data_frame, indicators)` (source lines 79-109) as a heap
transformer: the caller's frame lives at index `r`; each iteration reads it
and allocates its mutated `plot_data` at a fresh index. -/
def visualize (h : List DFrame) (r : Nat) (indicators : List String) :
    List DFrame :=
  indicators.foldl
    (fun acc ind => acc ++ [plotFrame (acc.getD r ⟨[], [], [], []⟩) ind]) h

/-- `cluster_data` (source lines 119-148) as a heap transformer:
`cluster_df = df.copy()` allocates a fresh slot, and the
`cluster_df["Cluster"] = cluster_labels` write hits that slot only. -/
def cluster_data_heap (h : List DFrame) (r : Nat) (k : ℚ) :
    List DFrame × Except PyError (List Nat × List (List ℚ)) :=
  match kmeansFit 0 k (scaler (h.getD r ⟨[], [], [], []⟩).numRows).1 with
  | .error e => (h ++ [h.getD r ⟨[], [], [], []⟩], .error e)
  | .ok labels =>
    ((h ++ [h.getD r ⟨[], [], [], []⟩]).set h.length
        ⟨(h.getD r ⟨[], [], [], []⟩).strHeader,
         (h.getD r ⟨[], [], [], []⟩).strRows,
         (h.getD r ⟨[], [], [], []⟩).numHeader ++ ["Cluster"],
         List.zipWith (fun row l => row ++ [(l : ℚ)])
           (h.getD r ⟨[], [], [], []⟩).numRows labels⟩,
     .ok (labels, (scaler (h.getD r ⟨[], [], [], []⟩).numRows).1))

theorem visualize_slot (indicators : List String) (h : List DFrame) (r : Nat)
    (hr : r < h.length) : (visualize h r indicators)[r]? = h[r]? := by
  induction indicators generalizing h with
  | nil => rfl
  | cons ind inds ih =>
    have hstep : visualize h r (ind :: inds) =
        visualize (h ++ [plotFrame (h.getD r ⟨[], [], [], []⟩) ind]) r inds := rfl
    rw [hstep, ih _ (by simp; omega), List.getElem?_append, if_pos hr]

/-! ## Claim C10 -/

/-- **C10.** Non-mutation of inputs: `visualize` leaves the frame it
receives unchanged (all its writes go to the copied `plot_data`), and
`cluster_data` leaves its input frame unchanged as well — the `Cluster`
column is written only to the internal copy that is returned. -/
theorem visualize_cluster_data_no_mutation (h : List DFrame) (r : Nat)
    (indicators : List String) (k : ℚ) (hr : r < h.length) :
    (visualize h r indicators)[r]? = h[r]? ∧
    (cluster_data_heap h r k).1[r]? = h[r]? := by
  refine ⟨visualize_slot indicators h r hr, ?_⟩
  rw [cluster_data_heap]
  split
  next => simp [List.getElem?_append, if_pos hr]
  next =>
    simp only
    rw [List.getElem?_set_ne (by omega), List.getElem?_append, if_pos hr]

/-- Witness for C10 at a one-frame heap. -/
theorem visualize_cluster_data_no_mutation_witness :
    (0 : Nat) < 1 ∧
    ((visualize [sampleFrame] 0 ["CO2"])[0]? = [sampleFrame][0]? ∧
      (cluster_data_heap [sampleFrame] 0 1).1[0]? = [sampleFrame][0]?) :=
  ⟨by decide,
   visualize_cluster_data_no_mutation [sampleFrame] 0 ["CO2"] 1 (by decide)⟩

end ClusterCode
